import Mathlib

/-
Verification of `convergence-test/graph-step-stats.py`.

The script is a linear pipeline: it loads four fixed-name CSV files with
`np.genfromtxt(name, delimiter = ',', names = True)`, draws one scatter
series per file with `ax.scatter('normal_mvmt', 'error', data = d,
label = l, s = 1)`, switches both axes to log scale, sets a title and axis
texts, attaches a legend, and writes the figure with
`plt.savefig('error.png')` (agg backend, so a raster PNG).

The embedding below models the pipeline over a file system given as a map
from file names to optional contents.  `genfromtxt` is modelled after the
numpy call actually made by the script (default `dtype=float`,
`loose=True`, `invalid_raise=True`):
  * the first line that is not empty is the header; its comma-separated,
    whitespace-trimmed fields are the column names;
  * every later non-empty line is a data row, split on commas; a row whose
    field count differs from the header's raises (invalid_raise);
  * each field that parses as a Python float literal keeps its (trimmed)
    token, any other field is loaded as NaN (the loose conversion with the
    float default filling value) — it does NOT raise;
  * a file with no lines at all loads as an empty record (numpy only emits
    the "Empty input file" warning, it does not raise);
  * a missing file raises before any parsing.
Comment handling ('#') is not modelled: no input of interest contains '#'.
Numeric values are kept as their source tokens (constructor `Val.num`)
because no claim depends on float arithmetic, only on parse success,
pairing, counts and ordering.
-/

deriving instance DecidableEq for Except

namespace GraphStepStats

/-- One loaded cell: a field that parsed as a float keeps its trimmed
token, anything else is the NaN filling value. -/
inductive Val where
  | num (tok : String)
  | nan
deriving DecidableEq

/-- Split a character list on a separator character; `n` separators give
`n+1` (possibly empty) chunks, as Python's `str.split(sep)` does. -/
def splitCharsOn (sep : Char) : List Char → List (List Char)
  | [] => [[]]
  | c :: cs =>
    let r := splitCharsOn sep cs
    if c = sep then [] :: r
    else
      match r with
      | [] => [[c]]
      | h :: t => (c :: h) :: t

/-- Drop leading and trailing whitespace characters. -/
def trimChars (cs : List Char) : List Char :=
  ((cs.dropWhile Char.isWhitespace).reverse.dropWhile Char.isWhitespace).reverse

def trimStr (s : String) : String :=
  String.mk (trimChars s.toList)

/-- A nonempty run of decimal digits in which an underscore may appear only
between two digits, as in a Python numeric literal. -/
def digitsRunTail : List Char → Bool
  | [] => true
  | '_' :: c :: rest => c.isDigit && digitsRunTail rest
  | c :: rest => c.isDigit && digitsRunTail rest

def digitsRun : List Char → Bool
  | [] => false
  | c :: rest => c.isDigit && digitsRunTail rest

/-- Drop one leading `+` or `-`. -/
def signStrip : List Char → List Char
  | '+' :: cs => cs
  | '-' :: cs => cs
  | cs => cs

/-- The special float spellings `inf`, `infinity`, `nan` (already
lower-cased and sign-stripped). -/
def isInfNan (cs : List Char) : Bool :=
  cs = ['i', 'n', 'f'] ||
  cs = ['i', 'n', 'f', 'i', 'n', 'i', 't', 'y'] ||
  cs = ['n', 'a', 'n']

/-- Mantissa of a float literal: `digits`, `digits.`, `.digits` or
`digits.digits`. -/
def mantissaOk (cs : List Char) : Bool :=
  match splitCharsOn '.' cs with
  | [ip] => digitsRun ip
  | [ip, fp] =>
    (ip.isEmpty || digitsRun ip) && (fp.isEmpty || digitsRun fp) &&
    !(ip.isEmpty && fp.isEmpty)
  | _ => false

/-- Exponent part: optional sign then digits. -/
def exponentOk (cs : List Char) : Bool :=
  digitsRun (signStrip cs)

/-- Whether Python's `float(tok)` succeeds: optional surrounding
whitespace, optional sign, then a mantissa with an optional exponent, or
one of the `inf`/`infinity`/`nan` spellings (case-insensitive). -/
def isFloatChars (cs0 : List Char) : Bool :=
  let cs := signStrip ((trimChars cs0).map Char.toLower)
  isInfNan cs ||
  match splitCharsOn 'e' cs with
  | [m] => mantissaOk m
  | [m, ex] => mantissaOk m && exponentOk ex
  | _ => false

/-- Loose conversion of one CSV field, as genfromtxt's default does it: a
parseable float keeps its trimmed token, everything else becomes NaN. -/
def parseVal (tok : String) : Val :=
  if isFloatChars tok.toList then .num (trimStr tok) else .nan

/-- Split one CSV line on the `,` delimiter. -/
def splitFields (line : String) : List String :=
  (splitCharsOn ',' line.toList).map String.mk

/-- One loaded CSV file: the header's column names and the data rows
(each row in header order). -/
structure Dataset where
  names : List String
  rows : List (List Val)
deriving DecidableEq

/-- How a load can fail. -/
inductive LoadErr where
  | fileNotFound
  | notText
  | columnMismatch
deriving DecidableEq

/-- Model of `np.genfromtxt(_, delimiter = ',', names = True)` on the
lines of an existing text file. -/
def genfromtxt (lines : List String) : Except LoadErr Dataset :=
  match lines.dropWhile (fun l => l == "") with
  | [] => .ok ⟨[], []⟩
  | header :: rest =>
    let names := (splitFields header).map trimStr
    let rawRows := (rest.filter (fun l => l != "")).map splitFields
    if rawRows.all (fun r => r.length == names.length) then
      .ok ⟨names, rawRows.map (fun r => r.map parseVal)⟩
    else
      .error .columnMismatch

/-- Number of data rows of a CSV file: the non-empty lines after the
header (the first non-empty line). -/
def dataRowCount (lines : List String) : Nat :=
  match lines.dropWhile (fun l => l == "") with
  | [] => 0
  | _ :: rest => (rest.filter (fun l => l != "")).length

/-- Index of a column name in the header, first match. -/
def colIndex (nm : String) : List String → Option Nat
  | [] => none
  | n :: rest => if n = nm then some 0 else (colIndex nm rest).map (· + 1)

/-- Field access on the loaded record, as `data['name']` on a numpy
structured array: `none` when the name is not a column. -/
def getColumn (d : Dataset) (nm : String) : Option (List Val) :=
  (colIndex nm d.names).map (fun i => d.rows.map (fun r => r.getD i .nan))

/-- One scatter series of the figure: x data, y data, its legend tag and
the `s` marker-size argument. -/
structure Series where
  x : List Val
  y : List Val
  label : String
  s : Nat
deriving DecidableEq

/-- The mutable axes/figure state of the script. -/
structure Axes where
  series : List Series
  xscale : String
  yscale : String
  title : String
  xlabel : String
  ylabel : String
  legendEntries : Option (List String)
deriving DecidableEq

/-- `fig, ax = plt.subplots()`: a fresh axes object with matplotlib's
defaults. -/
def subplots : Axes :=
  ⟨[], "linear", "linear", "", "", "", none⟩

/-- An uncaught exception of the pipeline: a load failure naming the file,
or a scatter call whose column name is not in the record. -/
inductive RunErr where
  | load (fname : String) (e : LoadErr)
  | scatterMissing (colName : String)
deriving DecidableEq

/-- `ax.scatter(xn, yn, data = d, label = lab, s = sz)`: appends one
series pairing the two named columns of `d`; raises when a named column
is absent from the record. -/
def scatter (ax : Axes) (xn yn : String) (d : Dataset) (lab : String) (sz : Nat) :
    Except RunErr Axes :=
  match getColumn d xn, getColumn d yn with
  | some xs, some ys => .ok { ax with series := ax.series ++ [⟨xs, ys, lab, sz⟩] }
  | none, _ => .error (.scatterMissing xn)
  | _, none => .error (.scatterMissing yn)

/-- Lines 18-23 of the script: log scales, title, axis texts, legend. -/
def finalizeAxes (ax : Axes) : Axes :=
  { ax with
    xscale := "log"
    yscale := "log"
    title := "Error per normal movement"
    xlabel := "Movement from normal change, per distance"
    ylabel := "Error per distance"
    legendEntries := some (ax.series.map Series.label) }

/-- Contents of one file on disk: a text file as its list of lines, or
the raster image savefig renders from a figure. -/
inductive FileData where
  | text (lines : List String)
  | image (fig : Axes)
deriving DecidableEq

/-- The working directory: file name to contents. -/
def FS : Type := String → Option FileData

/-- Loading one CSV file by name from the working directory. -/
def load (fs : FS) (fname : String) : Except RunErr Dataset :=
  match fs fname with
  | none => .error (.load fname .fileNotFound)
  | some (.image _) => .error (.load fname .notText)
  | some (.text lines) =>
    match genfromtxt lines with
    | .ok d => .ok d
    | .error e => .error (.load fname e)

def setFile (fs : FS) (fname : String) (d : FileData) : FS :=
  fun n => if n = fname then some d else fs n

/-- `plt.savefig(fname)`: writes the rendered figure over whatever the
name held before. -/
def savefig (fs : FS) (fname : String) (fig : Axes) : FS :=
  setFile fs fname (.image fig)

/-- Lines 13-17: the four scatter calls, in program order. -/
def plotPhase (d01 d02 d04 d08 : Dataset) : Except RunErr Axes :=
  match scatter subplots "normal_mvmt" "error" d01 "0.01" 1 with
  | .error e => .error e
  | .ok ax1 =>
    match scatter ax1 "normal_mvmt" "error" d02 "0.02" 1 with
    | .error e => .error e
    | .ok ax2 =>
      match scatter ax2 "normal_mvmt" "error" d04 "0.04" 1 with
      | .error e => .error e
      | .ok ax3 =>
        match scatter ax3 "normal_mvmt" "error" d08 "0.08" 1 with
        | .error e => .error e
        | .ok ax4 => .ok ax4

/-- Lines 8-23: the four loads in program order, the plotting phase, then
finalization; any uncaught exception aborts the rest. -/
def runFigure (fs : FS) : Except RunErr Axes :=
  match load fs "ss-0.01.csv" with
  | .error e => .error e
  | .ok data_0_01 =>
    match load fs "ss-0.02.csv" with
    | .error e => .error e
    | .ok data_0_02 =>
      match load fs "ss-0.04.csv" with
      | .error e => .error e
      | .ok data_0_04 =>
        match load fs "ss-0.08.csv" with
        | .error e => .error e
        | .ok data_0_08 =>
          match plotPhase data_0_01 data_0_02 data_0_04 data_0_08 with
          | .error e => .error e
          | .ok ax => .ok (finalizeAxes ax)

/-- The whole script's effect on the working directory: on success the
figure is written to `error.png`, on an uncaught exception nothing is
written. -/
def runProgram (fs : FS) : FS :=
  match runFigure fs with
  | .ok fig => savefig fs "error.png" fig
  | .error _ => fs

/-- Process entry: the script never reads `sys.argv`, so the argument
vector is received and ignored. -/
def mainEntry (_argv : List String) (fs : FS) : FS :=
  runProgram fs

/-- The four fixed input names, in the order the script loads them. -/
def inputFiles : List String :=
  ["ss-0.01.csv", "ss-0.02.csv", "ss-0.04.csv", "ss-0.08.csv"]

/-- Each input file with the label its series is tagged with. -/
def fileLabels : List (String × String) :=
  [("ss-0.01.csv", "0.01"), ("ss-0.02.csv", "0.02"),
   ("ss-0.04.csv", "0.04"), ("ss-0.08.csv", "0.08")]

/-! Concrete inputs used to instantiate the theorems below. -/

/-- A small well-formed CSV file: header plus two numeric rows. -/
def goodLines : List String :=
  ["normal_mvmt,error", "1.0,0.1", "2.0,0.2"]

/-- The record `genfromtxt goodLines` produces. -/
def dGood : Dataset :=
  ⟨["normal_mvmt", "error"],
   [[.num "1.0", .num "0.1"], [.num "2.0", .num "0.2"]]⟩

/-- A directory holding `goodLines` under all four input names. -/
def fsGood : FS :=
  fun n => if n ∈ inputFiles then some (.text goodLines) else none

/-- `fsGood` plus one unrelated file the script never reads. -/
def fsJunk : FS :=
  fun n => if n = "junk.txt" then some (.text ["x"]) else fsGood n

/-- A directory where `ss-0.02.csv` is missing, the other three inputs
are valid, and a stale `error.png` is present. -/
def fsC2 : FS :=
  fun n =>
    if n = "ss-0.01.csv" then some (.text goodLines)
    else if n = "ss-0.04.csv" then some (.text goodLines)
    else if n = "ss-0.08.csv" then some (.text goodLines)
    else if n = "error.png" then some (.text ["stale"])
    else none

/-- A directory whose `ss-0.01.csv` has a non-numeric value in a data
row. -/
def fsNonNumeric : FS :=
  fun n =>
    if n = "ss-0.01.csv" then some (.text ["normal_mvmt,error", "1.0,abc"])
    else none

/-- A directory whose `ss-0.02.csv` exists and is empty. -/
def fsEmptyFile : FS :=
  fun n => if n = "ss-0.02.csv" then some (.text []) else none

/-- A directory with no files at all. -/
def fsEmptyDir : FS := fun _ => none

def xg : List Val := [.num "1.0", .num "2.0"]

def yg : List Val := [.num "0.1", .num "0.2"]

/-- The axes after the four scatter calls on `dGood`. -/
def axGood : Axes :=
  ⟨[⟨xg, yg, "0.01", 1⟩, ⟨xg, yg, "0.02", 1⟩, ⟨xg, yg, "0.04", 1⟩, ⟨xg, yg, "0.08", 1⟩],
   "linear", "linear", "", "", "", none⟩

/-- The finished figure of a run on `fsGood`. -/
def figGood : Axes :=
  ⟨[⟨xg, yg, "0.01", 1⟩, ⟨xg, yg, "0.02", 1⟩, ⟨xg, yg, "0.04", 1⟩, ⟨xg, yg, "0.08", 1⟩],
   "log", "log", "Error per normal movement",
   "Movement from normal change, per distance", "Error per distance",
   some ["0.01", "0.02", "0.04", "0.08"]⟩

/-! ## Helper lemmas -/

theorem colIndex_isSome_of_mem (nm : String) (l : List String) (h : nm ∈ l) :
    (colIndex nm l).isSome = true := by
  induction l with
  | nil => simp at h
  | cons b t ih =>
    simp only [colIndex]
    by_cases hb : b = nm
    · simp [hb]
    · rcases List.mem_cons.mp h with hh | hh
      · exact absurd hh.symm hb
      · obtain ⟨i, hi⟩ := Option.isSome_iff_exists.mp (ih hh)
        simp [hb, hi]

theorem getColumn_spec (d : Dataset) (nm : String) (h : nm ∈ d.names) :
    (getColumn d nm).isSome = true ∧
    ((getColumn d nm).getD []).length = d.rows.length := by
  obtain ⟨i, hi⟩ := Option.isSome_iff_exists.mp (colIndex_isSome_of_mem nm d.names h)
  constructor
  · simp [getColumn, hi]
  · simp [getColumn, hi]

theorem scatter_ok (ax ax2 : Axes) (xn yn : String) (d : Dataset) (lab : String)
    (sz : Nat) (h : scatter ax xn yn d lab sz = .ok ax2) :
    ∃ xs ys, getColumn d xn = some xs ∧ getColumn d yn = some ys ∧
      ax2 = { ax with series := ax.series ++ [⟨xs, ys, lab, sz⟩] } := by
  simp only [scatter] at h
  split at h
  · rename_i xs ys hx hy
    cases h
    exact ⟨xs, ys, hx, hy, rfl⟩
  · simp at h
  · simp at h

theorem plotPhase_ok (d1 d2 d3 d4 : Dataset) (ax : Axes)
    (h : plotPhase d1 d2 d3 d4 = .ok ax) :
    ∃ x1 y1 x2 y2 x3 y3 x4 y4,
      getColumn d1 "normal_mvmt" = some x1 ∧ getColumn d1 "error" = some y1 ∧
      getColumn d2 "normal_mvmt" = some x2 ∧ getColumn d2 "error" = some y2 ∧
      getColumn d3 "normal_mvmt" = some x3 ∧ getColumn d3 "error" = some y3 ∧
      getColumn d4 "normal_mvmt" = some x4 ∧ getColumn d4 "error" = some y4 ∧
      ax = ⟨[⟨x1, y1, "0.01", 1⟩, ⟨x2, y2, "0.02", 1⟩, ⟨x3, y3, "0.04", 1⟩,
             ⟨x4, y4, "0.08", 1⟩], "linear", "linear", "", "", "", none⟩ := by
  simp only [plotPhase] at h
  split at h
  · simp at h
  · rename_i ax1 h1
    split at h
    · simp at h
    · rename_i ax2 h2
      split at h
      · simp at h
      · rename_i ax3 h3
        split at h
        · simp at h
        · rename_i ax4 h4
          obtain ⟨x1, y1, hx1, hy1, rfl⟩ := scatter_ok _ _ _ _ _ _ _ h1
          obtain ⟨x2, y2, hx2, hy2, rfl⟩ := scatter_ok _ _ _ _ _ _ _ h2
          obtain ⟨x3, y3, hx3, hy3, rfl⟩ := scatter_ok _ _ _ _ _ _ _ h3
          obtain ⟨x4, y4, hx4, hy4, rfl⟩ := scatter_ok _ _ _ _ _ _ _ h4
          cases h
          exact ⟨x1, y1, x2, y2, x3, y3, x4, y4,
                 hx1, hy1, hx2, hy2, hx3, hy3, hx4, hy4, rfl⟩

theorem runFigure_ok (fs : FS) (axf : Axes) (h : runFigure fs = .ok axf) :
    ∃ d1 d2 d3 d4 ax,
      load fs "ss-0.01.csv" = .ok d1 ∧ load fs "ss-0.02.csv" = .ok d2 ∧
      load fs "ss-0.04.csv" = .ok d3 ∧ load fs "ss-0.08.csv" = .ok d4 ∧
      plotPhase d1 d2 d3 d4 = .ok ax ∧ axf = finalizeAxes ax := by
  cases h1 : load fs "ss-0.01.csv" with
  | error e => simp [runFigure, h1] at h
  | ok d1 =>
  cases h2 : load fs "ss-0.02.csv" with
  | error e => simp [runFigure, h1, h2] at h
  | ok d2 =>
  cases h3 : load fs "ss-0.04.csv" with
  | error e => simp [runFigure, h1, h2, h3] at h
  | ok d3 =>
  cases h4 : load fs "ss-0.08.csv" with
  | error e => simp [runFigure, h1, h2, h3, h4] at h
  | ok d4 =>
  cases hp : plotPhase d1 d2 d3 d4 with
  | error e => simp [runFigure, h1, h2, h3, h4, hp] at h
  | ok ax =>
    refine ⟨d1, d2, d3, d4, ax, rfl, rfl, rfl, rfl, hp, ?_⟩
    simp [runFigure, h1, h2, h3, h4, hp] at h
    exact h.symm

theorem load_ext (fs1 fs2 : FS) (f : String) (h : fs1 f = fs2 f) :
    load fs1 f = load fs2 f := by
  simp only [load, h]

theorem runFigure_ext (fs1 fs2 : FS) (h : ∀ n ∈ inputFiles, fs1 n = fs2 n) :
    runFigure fs1 = runFigure fs2 := by
  have h1 := load_ext fs1 fs2 "ss-0.01.csv" (h _ (by decide))
  have h2 := load_ext fs1 fs2 "ss-0.02.csv" (h _ (by decide))
  have h3 := load_ext fs1 fs2 "ss-0.04.csv" (h _ (by decide))
  have h4 := load_ext fs1 fs2 "ss-0.08.csv" (h _ (by decide))
  simp only [runFigure, h1, h2, h3, h4]

/-! ## Claims -/

/-- C1, counterexample: the claim says the load operation fails for a data
row with a non-float value and for an empty file.  It does not: with the
script's genfromtxt call a non-float field is loaded as NaN and an empty
file loads as an empty record, both with an `ok` result. -/
theorem C1_load_failure_counterexample :
    load fsNonNumeric "ss-0.01.csv" =
      .ok ⟨["normal_mvmt", "error"], [[.num "1.0", .nan]]⟩ ∧
    load fsEmptyFile "ss-0.02.csv" = .ok ⟨[], []⟩ := by
  constructor <;> decide

/-- C1, amended: the load operation fails for a missing file and for a data
row whose field count differs from the header's; an empty file loads as an
empty record, and a non-float data value is loaded as NaN, neither failing
at load time. -/
theorem C1_load_failure_amended :
    (∀ (fs : FS) (f : String), fs f = none →
      load fs f = .error (.load f .fileNotFound)) ∧
    (∀ (header : String) (rest : List String) (r : List String),
      header ≠ "" →
      r ∈ (rest.filter (fun l => l != "")).map splitFields →
      r.length ≠ (splitFields header).length →
      genfromtxt (header :: rest) = .error .columnMismatch) ∧
    genfromtxt ["normal_mvmt,error", "1.0,abc"] =
      .ok ⟨["normal_mvmt", "error"], [[.num "1.0", .nan]]⟩ ∧
    genfromtxt [] = .ok ⟨[], []⟩ := by
  refine ⟨?_, ?_, by decide, by decide⟩
  · intro fs f h
    simp [load, h]
  · intro header rest r hh hr hlen
    have hdw : (header :: rest).dropWhile (fun l => l == "") = header :: rest := by
      rw [List.dropWhile_cons]
      simp [hh]
    simp only [genfromtxt, hdw]
    split
    · rename_i hall
      exfalso
      have h2 := List.all_eq_true.mp hall r hr
      have h3 : r.length = ((splitFields header).map trimStr).length := by
        simpa using h2
      rw [List.length_map] at h3
      exact hlen h3
    · rfl

/-- C1, satisfiability of the amended claim's hypotheses: a missing file
and a two-column header with a one-field data row. -/
theorem C1_load_failure_witness :
    load fsEmptyDir "ss-0.01.csv" = .error (.load "ss-0.01.csv" .fileNotFound) ∧
    genfromtxt ["normal_mvmt,error", "1.0"] = .error .columnMismatch := by
  constructor
  · exact C1_load_failure_amended.1 fsEmptyDir "ss-0.01.csv" rfl
  · exact C1_load_failure_amended.2.1 "normal_mvmt,error" ["1.0"] ["1.0"]
      (by decide) (by decide) (by decide)

/-- C2: when `ss-0.02.csv` is missing and the other inputs load, the run
aborts inside the load phase with that file's not-found failure, and the
working directory — `error.png` included — is left exactly as it was. -/
theorem C2_missing_second_file (fs : FS)
    (h01 : (load fs "ss-0.01.csv").isOk = true)
    (h02 : fs "ss-0.02.csv" = none)
    (_h04 : (load fs "ss-0.04.csv").isOk = true)
    (_h08 : (load fs "ss-0.08.csv").isOk = true) :
    runFigure fs = .error (.load "ss-0.02.csv" .fileNotFound) ∧
    runProgram fs = fs := by
  obtain ⟨d1, hd1⟩ : ∃ d, load fs "ss-0.01.csv" = .ok d := by
    cases hl : load fs "ss-0.01.csv" with
    | ok d => exact ⟨d, rfl⟩
    | error e => rw [hl] at h01; simp [Except.isOk, Except.toBool] at h01
  have h2 : load fs "ss-0.02.csv" = .error (.load "ss-0.02.csv" .fileNotFound) := by
    simp [load, h02]
  have hrf : runFigure fs = .error (.load "ss-0.02.csv" .fileNotFound) := by
    simp [runFigure, hd1, h2]
  exact ⟨hrf, by simp [runProgram, hrf]⟩

/-- C2, witness: the three valid files plus a stale `error.png`, with
`ss-0.02.csv` absent. -/
theorem C2_missing_second_file_witness :
    runFigure fsC2 = .error (.load "ss-0.02.csv" .fileNotFound) ∧
    runProgram fsC2 = fsC2 :=
  C2_missing_second_file fsC2 (by decide) (by decide) (by decide) (by decide)

/-- C3: a file among the four fixed names that exists and loads with both
`normal_mvmt` and `error` among its column names yields columns of equal
length, and that length is the file's data-row count. -/
theorem C3_columns_length (fs : FS) (fname : String) (d : Dataset)
    (lines : List String) (_hmem : fname ∈ inputFiles)
    (hfs : fs fname = some (.text lines)) (hload : load fs fname = .ok d)
    (h1 : "normal_mvmt" ∈ d.names) (h2 : "error" ∈ d.names) :
    (getColumn d "normal_mvmt").isSome = true ∧
    (getColumn d "error").isSome = true ∧
    ((getColumn d "normal_mvmt").getD []).length =
      ((getColumn d "error").getD []).length ∧
    ((getColumn d "normal_mvmt").getD []).length = dataRowCount lines := by
  have hgen : genfromtxt lines = .ok d := by
    simp only [load, hfs] at hload
    split at hload
    · rename_i d0 heq
      cases hload
      exact heq
    · simp at hload
  have hrows : d.rows.length = dataRowCount lines := by
    cases hdw : lines.dropWhile (fun l => l == "") with
    | nil =>
      simp only [genfromtxt, hdw] at hgen
      cases hgen
      simp [dataRowCount, hdw]
    | cons header rest =>
      simp only [genfromtxt, hdw] at hgen
      split at hgen
      · cases hgen
        simp [dataRowCount, hdw]
      · simp at hgen
  obtain ⟨hs1, hl1⟩ := getColumn_spec d "normal_mvmt" h1
  obtain ⟨hs2, hl2⟩ := getColumn_spec d "error" h2
  exact ⟨hs1, hs2, by rw [hl1, hl2], by rw [hl1, hrows]⟩

/-- C3, witness: the two-row file `goodLines` loaded as `dGood`. -/
theorem C3_columns_length_witness :
    (getColumn dGood "normal_mvmt").isSome = true ∧
    (getColumn dGood "error").isSome = true ∧
    ((getColumn dGood "normal_mvmt").getD []).length =
      ((getColumn dGood "error").getD []).length ∧
    ((getColumn dGood "normal_mvmt").getD []).length = dataRowCount goodLines :=
  C3_columns_length fsGood "ss-0.01.csv" dGood goodLines (by decide) (by decide)
    (by decide) (by decide) (by decide)

/-- C4: four records holding both plotted columns give a figure with
exactly four series whose legend tags are, in supply order, the four
labels; the legend lists the same tags in the same order. -/
theorem C4_four_series (d1 d2 d3 d4 : Dataset)
    (h1x : (getColumn d1 "normal_mvmt").isSome = true)
    (h1y : (getColumn d1 "error").isSome = true)
    (h2x : (getColumn d2 "normal_mvmt").isSome = true)
    (h2y : (getColumn d2 "error").isSome = true)
    (h3x : (getColumn d3 "normal_mvmt").isSome = true)
    (h3y : (getColumn d3 "error").isSome = true)
    (h4x : (getColumn d4 "normal_mvmt").isSome = true)
    (h4y : (getColumn d4 "error").isSome = true) :
    ∃ ax, plotPhase d1 d2 d3 d4 = .ok ax ∧
      (finalizeAxes ax).series.length = 4 ∧
      (finalizeAxes ax).series.map Series.label = ["0.01", "0.02", "0.04", "0.08"] ∧
      (finalizeAxes ax).legendEntries = some ["0.01", "0.02", "0.04", "0.08"] := by
  obtain ⟨x1, hx1⟩ := Option.isSome_iff_exists.mp h1x
  obtain ⟨y1, hy1⟩ := Option.isSome_iff_exists.mp h1y
  obtain ⟨x2, hx2⟩ := Option.isSome_iff_exists.mp h2x
  obtain ⟨y2, hy2⟩ := Option.isSome_iff_exists.mp h2y
  obtain ⟨x3, hx3⟩ := Option.isSome_iff_exists.mp h3x
  obtain ⟨y3, hy3⟩ := Option.isSome_iff_exists.mp h3y
  obtain ⟨x4, hx4⟩ := Option.isSome_iff_exists.mp h4x
  obtain ⟨y4, hy4⟩ := Option.isSome_iff_exists.mp h4y
  refine ⟨⟨[⟨x1, y1, "0.01", 1⟩, ⟨x2, y2, "0.02", 1⟩, ⟨x3, y3, "0.04", 1⟩,
            ⟨x4, y4, "0.08", 1⟩], "linear", "linear", "", "", "", none⟩,
          ?_, rfl, rfl, rfl⟩
  simp [plotPhase, scatter, subplots, hx1, hy1, hx2, hy2, hx3, hy3, hx4, hy4]

/-- C4, witness: the four records all `dGood`. -/
theorem C4_four_series_witness :
    ∃ ax, plotPhase dGood dGood dGood dGood = .ok ax ∧
      (finalizeAxes ax).series.length = 4 ∧
      (finalizeAxes ax).series.map Series.label = ["0.01", "0.02", "0.04", "0.08"] ∧
      (finalizeAxes ax).legendEntries = some ["0.01", "0.02", "0.04", "0.08"] :=
  C4_four_series dGood dGood dGood dGood (by decide) (by decide) (by decide)
    (by decide) (by decide) (by decide) (by decide) (by decide)

/-- C5: finalization always sets both scales to log, the exact title and
axis texts of the script, and a legend keyed by the series labels. -/
theorem C5_finalize_sets_figure (ax : Axes) :
    (finalizeAxes ax).xscale = "log" ∧ (finalizeAxes ax).yscale = "log" ∧
    (finalizeAxes ax).title = "Error per normal movement" ∧
    (finalizeAxes ax).xlabel = "Movement from normal change, per distance" ∧
    (finalizeAxes ax).ylabel = "Error per distance" ∧
    (finalizeAxes ax).legendEntries = some (ax.series.map Series.label) :=
  ⟨rfl, rfl, rfl, rfl, rfl, rfl⟩

/-- C6: the input names are exactly the four fixed ones; the argument
vector is never consumed; and the run reads no file outside the four —
two directories agreeing on them produce the same figure result. -/
theorem C6_fixed_inputs_no_cli :
    inputFiles = ["ss-0.01.csv", "ss-0.02.csv", "ss-0.04.csv", "ss-0.08.csv"] ∧
    (∀ (argv1 argv2 : List String) (fs : FS), mainEntry argv1 fs = mainEntry argv2 fs) ∧
    (∀ fs1 fs2 : FS, (∀ n ∈ inputFiles, fs1 n = fs2 n) →
      runFigure fs1 = runFigure fs2) :=
  ⟨rfl, fun _ _ _ => rfl, runFigure_ext⟩

/-- C7: whenever the pipeline reaches the save, the figure is written to
`error.png`, replacing whatever the directory held under that name. -/
theorem C7_saves_error_png (fs : FS) (fig : Axes)
    (h : runFigure fs = .ok fig) :
    runProgram fs = setFile fs "error.png" (.image fig) ∧
    runProgram fs "error.png" = some (.image fig) := by
  constructor
  · simp [runProgram, h, savefig]
  · simp [runProgram, h, savefig, setFile]

/-- C7, witness: a successful run on `fsGood` writes `figGood`. -/
theorem C7_saves_error_png_witness :
    runProgram fsGood = setFile fsGood "error.png" (.image figGood) ∧
    runProgram fsGood "error.png" = some (.image figGood) :=
  C7_saves_error_png fsGood figGood (by decide)

/-- C8: whenever the plotting phase succeeds, its series pair each
record's `normal_mvmt` column as x with its `error` column as y, in
record order, and every series carries the marker-size argument 1. -/
theorem C8_series_pairing_size (d1 d2 d3 d4 : Dataset) (ax : Axes)
    (h : plotPhase d1 d2 d3 d4 = .ok ax) :
    ∃ x1 y1 x2 y2 x3 y3 x4 y4,
      getColumn d1 "normal_mvmt" = some x1 ∧ getColumn d1 "error" = some y1 ∧
      getColumn d2 "normal_mvmt" = some x2 ∧ getColumn d2 "error" = some y2 ∧
      getColumn d3 "normal_mvmt" = some x3 ∧ getColumn d3 "error" = some y3 ∧
      getColumn d4 "normal_mvmt" = some x4 ∧ getColumn d4 "error" = some y4 ∧
      ax.series = [⟨x1, y1, "0.01", 1⟩, ⟨x2, y2, "0.02", 1⟩, ⟨x3, y3, "0.04", 1⟩,
                   ⟨x4, y4, "0.08", 1⟩] ∧
      ∀ sr ∈ ax.series, sr.s = 1 := by
  obtain ⟨x1, y1, x2, y2, x3, y3, x4, y4, hx1, hy1, hx2, hy2, hx3, hy3, hx4, hy4,
    rfl⟩ := plotPhase_ok d1 d2 d3 d4 ax h
  refine ⟨x1, y1, x2, y2, x3, y3, x4, y4, hx1, hy1, hx2, hy2, hx3, hy3, hx4, hy4,
    rfl, ?_⟩
  intro sr hsr
  simp only [List.mem_cons, List.not_mem_nil, or_false] at hsr
  rcases hsr with rfl | rfl | rfl | rfl <;> rfl

/-- C8, witness: the four records all `dGood`, with result `axGood`. -/
theorem C8_series_pairing_size_witness :
    ∃ x1 y1 x2 y2 x3 y3 x4 y4,
      getColumn dGood "normal_mvmt" = some x1 ∧ getColumn dGood "error" = some y1 ∧
      getColumn dGood "normal_mvmt" = some x2 ∧ getColumn dGood "error" = some y2 ∧
      getColumn dGood "normal_mvmt" = some x3 ∧ getColumn dGood "error" = some y3 ∧
      getColumn dGood "normal_mvmt" = some x4 ∧ getColumn dGood "error" = some y4 ∧
      axGood.series = [⟨x1, y1, "0.01", 1⟩, ⟨x2, y2, "0.02", 1⟩, ⟨x3, y3, "0.04", 1⟩,
                       ⟨x4, y4, "0.08", 1⟩] ∧
      ∀ sr ∈ axGood.series, sr.s = 1 :=
  C8_series_pairing_size dGood dGood dGood dGood axGood (by decide)

/-- C9: each label is the step-size portion of the file it tags — the file
name is `ss-` ++ label ++ `.csv` — the files are the four inputs in load
order, the labels are the four fixed strings, and any produced figure's
series carry those labels in that order. -/
theorem C9_labels_match_files :
    (∀ p ∈ fileLabels, p.1 = "ss-" ++ p.2 ++ ".csv") ∧
    fileLabels.map Prod.fst = inputFiles ∧
    fileLabels.map Prod.snd = ["0.01", "0.02", "0.04", "0.08"] ∧
    (∀ (fs : FS) (ax : Axes), runFigure fs = .ok ax →
      ax.series.map Series.label = fileLabels.map Prod.snd) := by
  refine ⟨by decide, by decide, by decide, ?_⟩
  intro fs ax h
  obtain ⟨d1, d2, d3, d4, ax0, _, _, _, _, hp, rfl⟩ := runFigure_ok fs ax h
  obtain ⟨x1, y1, x2, y2, x3, y3, x4, y4, _, _, _, _, _, _, _, _, rfl⟩ :=
    plotPhase_ok d1 d2 d3 d4 ax0 hp
  rfl

/-- C9, witness: the first pair of `fileLabels`, and the run on `fsGood`. -/
theorem C9_labels_match_files_witness :
    (("ss-0.01.csv", "0.01") : String × String).1 =
      "ss-" ++ (("ss-0.01.csv", "0.01") : String × String).2 ++ ".csv" ∧
    figGood.series.map Series.label = fileLabels.map Prod.snd :=
  ⟨C9_labels_match_files.1 ("ss-0.01.csv", "0.01") (by decide),
   C9_labels_match_files.2.2.2 fsGood figGood (by decide)⟩

/-- C10: the run is a pure function of the four input files: two
directories with the same contents under the four fixed names give the
same loaded records and the same figure result — nothing else (time,
randomness, environment, other files) enters the embedding. -/
theorem C10_deterministic (fs1 fs2 : FS)
    (h : ∀ n ∈ inputFiles, fs1 n = fs2 n) :
    (∀ n ∈ inputFiles, load fs1 n = load fs2 n) ∧
    runFigure fs1 = runFigure fs2 :=
  ⟨fun n hn => load_ext fs1 fs2 n (h n hn), runFigure_ext fs1 fs2 h⟩

/-- C10, witness: `fsGood` against `fsGood` plus an unread junk file. -/
theorem C10_deterministic_witness :
    (∀ n ∈ inputFiles, load fsGood n = load fsJunk n) ∧
    runFigure fsGood = runFigure fsJunk := by
  apply C10_deterministic
  intro n hn
  simp only [inputFiles, List.mem_cons, List.not_mem_nil, or_false] at hn
  rcases hn with rfl | rfl | rfl | rfl <;> rfl

/-- C6, witness: the argument vector is ignored and the junk file does not
change the figure. -/
theorem C6_fixed_inputs_no_cli_witness :
    mainEntry ["--flag"] fsGood = mainEntry [] fsGood ∧
    runFigure fsGood = runFigure fsJunk := by
  refine ⟨C6_fixed_inputs_no_cli.2.1 ["--flag"] [] fsGood,
          C6_fixed_inputs_no_cli.2.2 fsGood fsJunk ?_⟩
  intro n hn
  simp only [inputFiles, List.mem_cons, List.not_mem_nil, or_false] at hn
  rcases hn with rfl | rfl | rfl | rfl <;> rfl

end GraphStepStats
